import Mathlib

/-!
Verification of the user data-access layer (src/models/user.ts) and the
task-based generation polling loop of the ImagePrmoptTemplate repository,
via a shallow embedding in Lean 4.

The relational store (Supabase/PostgREST) is external to the repository;
its observable behaviour on the query chains actually issued by the code
is modelled explicitly (filters, single-row reads, range slices, insert
constraint checks).  The TypeScript functions themselves are translated
line by line.
-/

set_option autoImplicit false

namespace ImagePrompt

/-- The User record, from types/user.ts.  Optional TypeScript fields become
`Option` fields. -/
structure User where
  id : Option Nat
  uuid : Option String
  email : String
  nickname : String
  avatar_url : String
  phone : Option String
  credits : Option Int
  created_at : Option String
  updated_at : Option String
  locale : Option String
  signin_type : Option String
  signin_provider : Option String
  signin_openid : Option String
  signin_ip : Option String
  invite_code : Option String
  invited_by : Option String
  is_affiliate : Option Bool
deriving DecidableEq, Repr

/-- Helper building a User with only the fields the examples need. -/
def mkUser (email : String) (uuid : Option String) (provider : Option String)
    (created_at : Option String) : User :=
  ⟨none, uuid, email, "", "", none, none, created_at, none, none, none,
    provider, none, none, none, none, none⟩

/-- The PostgREST error code for a single-row request that did not return
exactly one row of data on the zero-row side. -/
def pgrstNoRows : String := "PGRST116"

/-- Modelled from the spec: the error code a single-row read reports when
more than one row matches (a non-PGRST116 error per the specification of
the lookup functions); the supabase client library is not part of src. -/
def pgrstManyRows : String := "PGRST_MULTI"

/-- Modelled from the spec: the outcome of `.single()` on the rows selected
by a query.  Exactly one row yields that row with no error; zero rows yield
null data with the no-rows code; several rows yield null data with a
distinct error code.  Returns the (data, error) pair of the supabase
response envelope. -/
def singleResp (resp : Except String (List User)) : Option User × Option String :=
  match resp with
  | .error code => (none, some code)
  | .ok [r] => (some r, none)
  | .ok [] => (none, some pgrstNoRows)
  | .ok _ => (none, some pgrstManyRows)

/-- Modelled from the spec: a read against the store either fails with an
injected error code (transport or store failure) or returns the rows
produced by the query chain `q` applied to the stored table. -/
def selectRows (db : List User) (failure : Option String)
    (q : List User → List User) : Except String (List User) :=
  match failure with
  | some code => .error code
  | none => .ok (q db)

/-- JavaScript truthiness of the optional `provider` argument: `undefined`
and the empty string are falsy. -/
def truthyProvider : Option String → Bool
  | none => false
  | some s => s ≠ ""

/-- The query chain built by findUserByEmail: filter on `email`, and on
`signin_provider` as well when the provider argument is truthy. -/
def emailQueryChain (email : String) (provider : Option String)
    (rows : List User) : List User :=
  let q := rows.filter (fun u => u.email == email)
  if truthyProvider provider then
    q.filter (fun u => u.signin_provider == provider)
  else q

/-- findUserByEmail from src/models/user.ts: single-row read over the
email (and optionally provider) filter; a PGRST116 error falls through to
returning the (null) data, any other error returns null. -/
def findUserByEmail (email : String) (provider : Option String)
    (db : List User) (failure : Option String) : Option User :=
  let resp := singleResp (selectRows db failure (emailQueryChain email provider))
  match resp.2 with
  | some code => if code ≠ pgrstNoRows then none else resp.1
  | none => resp.1

/-- findUserByUuid from src/models/user.ts: same contract keyed by uuid. -/
def findUserByUuid (uuid : String) (db : List User)
    (failure : Option String) : Option User :=
  let resp := singleResp (selectRows db failure
    (fun rows => rows.filter (fun u => u.uuid == some uuid)))
  match resp.2 with
  | some code => if code ≠ pgrstNoRows then none else resp.1
  | none => resp.1

/-- The predicate "row matches the (email, provider) lookup key", written
from the words of the specification (a row matches when its email equals
the given email and, when a provider is supplied, its signin provider
equals it).  Used to compare the code against the claims. -/
def matchesEmailProvider (email : String) (provider : Option String)
    (u : User) : Bool :=
  u.email == email &&
    (match provider with
     | none => true
     | some _ => u.signin_provider == provider)

/-- A Partial of the User type: each field is either absent (not part of
the update) or present with a value of the corresponding User field type. -/
structure PartialUser where
  id : Option (Option Nat)
  uuid : Option (Option String)
  email : Option String
  nickname : Option String
  avatar_url : Option String
  phone : Option (Option String)
  credits : Option (Option Int)
  created_at : Option (Option String)
  updated_at : Option (Option String)
  locale : Option (Option String)
  signin_type : Option (Option String)
  signin_provider : Option (Option String)
  signin_openid : Option (Option String)
  signin_ip : Option (Option String)
  invite_code : Option (Option String)
  invited_by : Option (Option String)
  is_affiliate : Option (Option Bool)
deriving DecidableEq, Repr

/-- The everywhere-absent partial update. -/
def emptyPartial : PartialUser :=
  ⟨none, none, none, none, none, none, none, none, none, none, none, none,
    none, none, none, none, none⟩

/-- Applying a partial update to a row: present fields overwrite, absent
fields keep the stored value. -/
def applyPartial (p : PartialUser) (u : User) : User :=
  ⟨p.id.getD u.id, p.uuid.getD u.uuid, p.email.getD u.email,
    p.nickname.getD u.nickname, p.avatar_url.getD u.avatar_url,
    p.phone.getD u.phone, p.credits.getD u.credits,
    p.created_at.getD u.created_at, p.updated_at.getD u.updated_at,
    p.locale.getD u.locale, p.signin_type.getD u.signin_type,
    p.signin_provider.getD u.signin_provider,
    p.signin_openid.getD u.signin_openid, p.signin_ip.getD u.signin_ip,
    p.invite_code.getD u.invite_code, p.invited_by.getD u.invited_by,
    p.is_affiliate.getD u.is_affiliate⟩

/-- updateUser from src/models/user.ts: update rows matching the uuid,
select the updated rows, take the single row; any error (including the
no-rows code) returns null. -/
def updateUser (uuid : String) (updates : PartialUser) (db : List User)
    (failure : Option String) : Option User :=
  let resp := singleResp (selectRows db failure
    (fun rows =>
      (rows.filter (fun u => u.uuid == some uuid)).map (applyPartial updates)))
  match resp.2 with
  | some _ => none
  | none => resp.1

/-- Modelled from the spec: whether inserting `user` violates a uniqueness
constraint of the store — a duplicate uuid, or a duplicate
(email, signin_provider) pair, per the data-model invariants; the store
itself is the hosted database, not part of src. -/
def insertConflict (db : List User) (user : User) : Bool :=
  db.any (fun r =>
    (user.uuid.isSome && r.uuid == user.uuid) ||
    (r.email == user.email && r.signin_provider == user.signin_provider))

/-- Modelled from the spec: the (data, error) response of
insert([user]).select().single().  A transport failure or a constraint
conflict reports an error with null data; otherwise the stored row —
`gen user`, where `gen` models the generated fields the store fills in —
comes back as data. -/
def storeInsert (db : List User) (user : User) (failure : Option String)
    (gen : User → User) : Option User × Option String :=
  match failure with
  | some code => (none, some code)
  | none =>
    if insertConflict db user then (none, some "23505")
    else (some (gen user), none)

/-- insertUser from src/models/user.ts: on error, throw (the `.error`
branch of the Except); otherwise return the stored row. -/
def insertUser (user : User) (db : List User) (failure : Option String)
    (gen : User → User) : Except String User :=
  let resp := storeInsert db user failure gen
  match resp.2 with
  | some code => .error code
  | none => .ok (resp.1.getD user)

/-- Lexicographic comparison of character lists, the text ordering the
store applies to timestamp strings. -/
def charsLe : List Char → List Char → Bool
  | [], _ => true
  | _ :: _, [] => false
  | a :: as, b :: bs => if a = b then charsLe as bs else decide (a < b)

/-- Lexicographic string comparison (ISO-8601 timestamps compare in this
order chronologically). -/
def strLe (a b : String) : Bool := charsLe a.data b.data

/-- Insertion step of a sort by a boolean comparison, modelling the
ordering applied by the store on `.order(...)` chains. -/
def insertBy (le : User → User → Bool) (u : User) : List User → List User
  | [] => [u]
  | v :: vs => if le u v then u :: v :: vs else v :: insertBy le u vs

/-- Sort by a boolean comparison (insertion sort). -/
def sortByLe (le : User → User → Bool) : List User → List User
  | [] => []
  | u :: us => insertBy le u (sortByLe le us)

/-- Comparison for order("created_at", ascending false): later timestamps
first; a null timestamp sorts first (descending order in the store puts
nulls first). -/
def createdLeDesc (a b : User) : Bool :=
  match a.created_at, b.created_at with
  | some x, some y => strLe y x
  | some _, none => false
  | none, _ => true

/-- Comparison for order("created_at", ascending true): earlier timestamps
first; a null timestamp sorts last. -/
def createdLeAsc (a b : User) : Bool :=
  match a.created_at, b.created_at with
  | some x, some y => strLe x y
  | none, some _ => false
  | _, none => true

/-- The inclusive row slice requested by .range(lo, hi). -/
def rangeSlice (rows : List User) (lo hi : Int) : List User :=
  ((rows.drop lo.toNat).take (hi - lo + 1).toNat)

/-- getUsers from src/models/user.ts: offset (page-1)*limit, rows ordered
by created_at descending, range(offset, offset+limit-1); an error returns
the empty list. -/
def getUsers (page limit : Int) (db : List User)
    (failure : Option String) : List User :=
  let offset := (page - 1) * limit
  match selectRows db failure
      (fun rows => rangeSlice (sortByLe createdLeDesc rows) offset
        (offset + limit - 1)) with
  | .error _ => []
  | .ok data => data

/-- getUsers called with both arguments omitted: the TypeScript default
parameters are page = 1 and limit = 50. -/
def getUsersDefault (db : List User) (failure : Option String) : List User :=
  getUsers 1 50 db failure

/-- getUsersByUuids from src/models/user.ts: an empty input returns the
empty list before any query is issued; otherwise one query filtering on
membership of uuid in the given list.  The second component counts the
queries issued to the store. -/
def getUsersByUuids (uuids : List String) (db : List User)
    (failure : Option String) : List User × Nat :=
  if uuids.isEmpty then ([], 0)
  else
    match selectRows db failure
        (fun rows => rows.filter (fun u =>
          match u.uuid with
          | some x => uuids.contains x
          | none => false)) with
    | .error _ => ([], 1)
    | .ok data => (data, 1)

/-- Characters before the first occurrence of the separator character. -/
def takeUntil (sep : Char) : List Char → List Char
  | [] => []
  | c :: cs => if c = sep then [] else c :: takeUntil sep cs

/-- The date extraction of getUserCountByDate:
item.created_at.split("T")[0], the part of the timestamp before the first
"T" (the whole string when no "T" occurs). -/
def dateKey (s : String) : String :=
  ⟨takeUntil 'T' s.data⟩

/-- Lookup in the insertion-ordered count map; a missing key reads as 0,
mirroring dateCountMap.get(date) || 0. -/
def lookupCount (m : List (String × Nat)) (k : String) : Nat :=
  match m with
  | [] => 0
  | (k0, v) :: rest => if k0 = k then v else lookupCount rest k

/-- Map.set on the insertion-ordered map: replace in place when the key is
present, append otherwise. -/
def mapSet (m : List (String × Nat)) (k : String) (v : Nat) :
    List (String × Nat) :=
  match m with
  | [] => [(k, v)]
  | (k0, v0) :: rest =>
    if k0 = k then (k, v) :: rest else (k0, v0) :: mapSet rest k v

/-- The filter of getUserCountByDate: gte("created_at", startTime); a null
created_at matches no comparison. -/
def createdAtLeast (startTime : String) (u : User) : Bool :=
  match u.created_at with
  | some t => strLe startTime t
  | none => false

/-- The forEach body of getUserCountByDate:
dateCountMap.set(date, (dateCountMap.get(date) || 0) + 1) at
date = item.created_at.split("T")[0]. -/
def countStep (m : List (String × Nat)) (item : User) : List (String × Nat) :=
  let date := dateKey (item.created_at.getD "")
  mapSet m date (lookupCount m date + 1)

/-- getUserCountByDate from src/models/user.ts: select created_at with
created_at >= startTime ordered ascending; on error return undefined;
otherwise fold the rows into a date -> count map with countStep. -/
def getUserCountByDate (startTime : String) (db : List User)
    (failure : Option String) : Option (List (String × Nat)) :=
  match selectRows db failure
      (fun rows => sortByLe createdLeAsc (rows.filter (createdAtLeast startTime))) with
  | .error _ => none
  | .ok data => some (data.foldl countStep [])

/-- Sum of the counts held in the map. -/
def sumCounts (m : List (String × Nat)) : Nat :=
  (m.map Prod.snd).sum

/-- Task status reported by the generation status endpoint. -/
inductive TaskStatus where
  | pending
  | processing
  | completed
  | failed
deriving DecidableEq, Repr

/-- The task data of a status poll response: status, optional progress
percentage, and the result list. -/
structure TaskData where
  status : TaskStatus
  progress : Option Nat
  results : List String
deriving DecidableEq, Repr

/-- The fixed polling cadence in milliseconds. -/
def pollInterval : Nat := 2000

/-- The iteration budget of the polling loop. -/
def maxAttempts : Nat := 120

/-- Outcome of a polling run, with the total waiting time elapsed in
milliseconds. -/
inductive PollOutcome where
  | success (artifact : Option String) (elapsedMs : Nat)
  | generationFailed (elapsedMs : Nat)
  | timeout (elapsedMs : Nat)
deriving DecidableEq, Repr

/-- The body of the for loop of the task-based generation pattern: wait one
interval, fetch the status for the current attempt (`polls attempt` gives
the response of the attempt-th poll), return results[0] on completed, throw
on failed, continue otherwise; when the budget is exhausted, throw the
timeout error. -/
def pollFrom (polls : Nat → TaskData) (attempt : Nat) :
    Nat → Nat → PollOutcome
  | 0, elapsed => .timeout elapsed
  | fuel + 1, elapsed =>
    let elapsed1 := elapsed + pollInterval
    let taskData := polls attempt
    match taskData.status with
    | .completed => .success taskData.results.head? elapsed1
    | .failed => .generationFailed elapsed1
    | _ => pollFrom polls (attempt + 1) fuel elapsed1

/-- The polling loop: attempts 0 up to maxAttempts - 1 with no time
elapsed at entry. -/
def pollTask (polls : Nat → TaskData) : PollOutcome :=
  pollFrom polls 0 maxAttempts 0

/-- Concrete poller scenario: the first three polls report processing, the
fourth reports completed with results ["url1"]. -/
def pollsScenario : Nat → TaskData := fun i =>
  if i < 3 then ⟨.processing, some 50, []⟩ else ⟨.completed, none, ["url1"]⟩

/-- Concrete poller scenario: every poll reports processing. -/
def pollsForever : Nat → TaskData := fun _ => ⟨.processing, some 50, []⟩

/- ------------------------------------------------------------------ -/
/- Theorems                                                           -/
/- ------------------------------------------------------------------ -/

theorem pollFrom_completes (polls : Nat → TaskData) :
    ∀ (k a fuel e : Nat), k < fuel →
    (∀ i, i < k → (polls (a + i)).status = .processing) →
    (polls (a + k)).status = .completed →
    pollFrom polls a fuel e =
      .success (polls (a + k)).results.head? (e + (k + 1) * pollInterval) := by
  intro k
  induction k with
  | zero =>
    intro a fuel e hfuel _ hdone
    match fuel, hfuel with
    | f + 1, _ =>
      simp only [Nat.add_zero] at hdone
      simp [pollFrom, hdone]
  | succ k ih =>
    intro a fuel e hfuel hproc hdone
    match fuel, hfuel with
    | f + 1, hfuel =>
      have hstep : (polls a).status = .processing := by
        have := hproc 0 (Nat.succ_pos k)
        simpa using this
      have hrec : pollFrom polls a (f + 1) e =
          pollFrom polls (a + 1) f (e + pollInterval) := by
        simp [pollFrom, hstep]
      rw [hrec]
      have hk : k < f := Nat.lt_of_succ_lt_succ hfuel
      have hproc1 : ∀ i, i < k → (polls (a + 1 + i)).status = .processing := by
        intro i hi
        have := hproc (i + 1) (Nat.succ_lt_succ hi)
        have harith : a + (i + 1) = a + 1 + i := by omega
        rwa [harith] at this
      have hdone1 : (polls (a + 1 + k)).status = .completed := by
        have harith : a + (k + 1) = a + 1 + k := by omega
        rwa [harith] at hdone
      have := ih (a + 1) f (e + pollInterval) hk hproc1 hdone1
      rw [this]
      have harith2 : a + 1 + k = a + (k + 1) := by omega
      have harith3 : e + pollInterval + (k + 1) * pollInterval =
          e + (k + 1 + 1) * pollInterval := by ring
      rw [harith2, harith3]

/-- Claim C1: if submission succeeds and the first k status polls
(k < 120) report processing while poll k+1 reports completed with a
non-empty results list, the poller returns results[0] as the artifact
after exactly k+1 polling intervals of 2000 ms. -/
theorem C1_poller_yields_first_result (polls : Nat → TaskData) (k : Nat)
    (r : String) (rs : List String)
    (hk : k < maxAttempts)
    (hproc : ∀ i, i < k → (polls i).status = .processing)
    (hdone : (polls k).status = .completed)
    (hres : (polls k).results = r :: rs) :
    pollTask polls = .success (some r) ((k + 1) * 2000) := by
  have h := pollFrom_completes polls k 0 maxAttempts 0 hk
    (by intro i hi; simpa using hproc i hi) (by simpa using hdone)
  simp only [Nat.zero_add] at h
  rw [pollTask, h, hres]
  rfl

/-- Witness for C1: the concrete scenario with task polls returning
processing three times and then completed with results ["url1"]. -/
theorem C1_poller_yields_first_result_witness :
    pollTask pollsScenario = .success (some "url1") ((3 + 1) * 2000) :=
  C1_poller_yields_first_result pollsScenario 3 "url1" []
    (by decide)
    (by intro i hi; interval_cases i <;> rfl)
    (by rfl) (by rfl)

theorem pollFrom_timeout (polls : Nat → TaskData) :
    ∀ (fuel a e : Nat),
    (∀ i, i < fuel →
      (polls (a + i)).status = .pending ∨ (polls (a + i)).status = .processing) →
    pollFrom polls a fuel e = .timeout (e + fuel * pollInterval) := by
  intro fuel
  induction fuel with
  | zero => intro a e _; simp [pollFrom]
  | succ f ih =>
    intro a e h
    have h0 := h 0 (Nat.succ_pos f)
    simp only [Nat.add_zero] at h0
    have hstep : pollFrom polls a (f + 1) e =
        pollFrom polls (a + 1) f (e + pollInterval) := by
      rcases h0 with h0 | h0 <;> simp [pollFrom, h0]
    rw [hstep]
    have h1 : ∀ i, i < f →
        (polls (a + 1 + i)).status = .pending ∨
        (polls (a + 1 + i)).status = .processing := by
      intro i hi
      have := h (i + 1) (Nat.succ_lt_succ hi)
      have harith : a + (i + 1) = a + 1 + i := by omega
      rwa [harith] at this
    rw [ih (a + 1) (e + pollInterval) h1]
    have : e + pollInterval + f * pollInterval = e + (f + 1) * pollInterval := by
      ring
    rw [this]

/-- Claim C2: if all 120 status polls report a non-terminal status, the
poller exits the loop after exactly 120 iterations (240000 ms of waiting),
surfaces the timeout error, and never yields an artifact. -/
theorem C2_poller_timeout (polls : Nat → TaskData)
    (h : ∀ i, i < maxAttempts →
      (polls i).status = .pending ∨ (polls i).status = .processing) :
    pollTask polls = .timeout (120 * 2000) ∧
      ∀ artifact elapsed, pollTask polls ≠ .success artifact elapsed := by
  have heq : pollTask polls = .timeout (120 * 2000) := by
    have h0 := pollFrom_timeout polls maxAttempts 0 0
      (by intro i hi; simpa using h i hi)
    rw [pollTask, h0]
    rfl
  refine ⟨heq, ?_⟩
  intro artifact elapsed hcontra
  rw [heq] at hcontra
  exact PollOutcome.noConfusion hcontra

/-- Witness for C2: the poller that sees processing on every poll times
out at 240000 ms and is not a success. -/
theorem C2_poller_timeout_witness :
    pollTask pollsForever = .timeout (120 * 2000) ∧
      ∀ artifact elapsed, pollTask pollsForever ≠ .success artifact elapsed :=
  C2_poller_timeout pollsForever (by intro i _; right; rfl)

theorem emailQueryChain_eq_matches (email : String) (provider : Option String)
    (db : List User)
    (hp : provider = none ∨ ∃ p, provider = some p ∧ p ≠ "") :
    emailQueryChain email provider db =
      db.filter (matchesEmailProvider email provider) := by
  rcases hp with hp | ⟨p, hp, hne⟩
  · subst hp
    simp only [emailQueryChain, truthyProvider, if_neg Bool.false_ne_true]
    apply List.filter_congr
    intro u _
    simp [matchesEmailProvider]
  · subst hp
    have ht : truthyProvider (some p) = true := by
      simp [truthyProvider, hne]
    simp only [emailQueryChain, ht, if_pos rfl]
    rw [List.filter_filter]
    apply List.filter_congr
    intro u _
    simp [matchesEmailProvider, Bool.and_comm]

theorem findUserByEmail_eq_of_chain (email : String) (provider : Option String)
    (db : List User) :
    findUserByEmail email provider db none =
      match emailQueryChain email provider db with
      | [u] => some u
      | _ => none := by
  rw [findUserByEmail]
  rcases hchain : emailQueryChain email provider db with _ | ⟨u, _ | ⟨v, t⟩⟩ <;>
    simp [singleResp, selectRows, hchain, pgrstNoRows, pgrstManyRows]

/-- Claim C5 counterexample: at email "a@b.c" with provider the empty
string, over a table with two rows of that email of which exactly one has
the empty signin provider, exactly one row matches the (email, provider)
pair, yet findUserByEmail returns none rather than that row (the empty
string is falsy, so the code filters on email alone, sees two rows, and
the single-row read errors). -/
theorem C5_counterexample :
    List.filter
        (matchesEmailProvider "a@b.c" (some ""))
        [mkUser "a@b.c" (some "u1") (some "") none,
         mkUser "a@b.c" (some "u2") (some "google") none] =
      [mkUser "a@b.c" (some "u1") (some "") none] ∧
    findUserByEmail "a@b.c" (some "")
        [mkUser "a@b.c" (some "u1") (some "") none,
         mkUser "a@b.c" (some "u2") (some "google") none] none = none := by
  constructor <;> rfl

/-- Claim C5 (amended: the provider argument is either omitted or a
non-empty string; the code treats an empty-string provider as omitted):
findUserByEmail returns null when no row matches and on any read failure,
never propagating an error (the return type carries no error), and when
exactly one row matches the (email, provider) key it returns that row. -/
theorem C5_find_by_email (email : String) (provider : Option String)
    (db : List User)
    (hp : provider = none ∨ ∃ p, provider = some p ∧ p ≠ "") :
    (∀ code, findUserByEmail email provider db (some code) = none) ∧
    (db.filter (matchesEmailProvider email provider) = [] →
      findUserByEmail email provider db none = none) ∧
    (∀ u, db.filter (matchesEmailProvider email provider) = [u] →
      findUserByEmail email provider db none = some u) := by
  refine ⟨?_, ?_, ?_⟩
  · intro code
    rw [findUserByEmail]
    simp only [selectRows, singleResp]
    by_cases hc : code = pgrstNoRows <;> simp [hc]
  · intro hnone
    rw [findUserByEmail_eq_of_chain,
      emailQueryChain_eq_matches email provider db hp, hnone]
  · intro u hone
    rw [findUserByEmail_eq_of_chain,
      emailQueryChain_eq_matches email provider db hp, hone]

/-- Witness for C5: a one-row table where the single row matches the
looked-up email and provider. -/
theorem C5_find_by_email_witness :
    findUserByEmail "a@b.c" (some "google")
        [mkUser "a@b.c" (some "u1") (some "google") none] none =
      some (mkUser "a@b.c" (some "u1") (some "google") none) :=
  (C5_find_by_email "a@b.c" (some "google")
      [mkUser "a@b.c" (some "u1") (some "google") none]
      (Or.inr ⟨"google", rfl, by decide⟩)).2.2
    (mkUser "a@b.c" (some "u1") (some "google") none) (by rfl)

theorem singleResp_of_two_le (rows : List User)
    (h : 2 ≤ rows.length) :
    singleResp (.ok rows) = (none, some pgrstManyRows) := by
  match rows, h with
  | a :: b :: t, _ => rfl

/-- Claim C9: when more than one stored row matches the email (and the
provider filter, if supplied), findUserByEmail returns null rather than an
arbitrarily chosen row, the single-row read having reported an error other
than the no-rows code; likewise findUserByUuid under a duplicated uuid. -/
theorem C9_multiple_matches_null (email : String) (provider : Option String)
    (uuid : String) (db : List User)
    (hemail : 2 ≤ (db.filter (matchesEmailProvider email provider)).length)
    (huuid : 2 ≤ (db.filter (fun u => u.uuid == some uuid)).length) :
    findUserByEmail email provider db none = none ∧
    findUserByUuid uuid db none = none := by
  constructor
  · have hchain : 2 ≤ (emailQueryChain email provider db).length := by
      refine le_trans hemail ?_
      rw [emailQueryChain]
      by_cases ht : truthyProvider provider = true
      · rw [if_pos ht]
        rw [List.filter_filter]
        rw [← List.countP_eq_length_filter, ← List.countP_eq_length_filter]
        apply List.countP_mono_left
        intro u _ hu
        simp only [matchesEmailProvider] at hu
        rcases provider with _ | p
        · simp [truthyProvider] at ht
        · simp only [Bool.and_eq_true] at hu ⊢
          exact ⟨hu.2, hu.1⟩
      · rw [if_neg ht]
        rw [← List.countP_eq_length_filter, ← List.countP_eq_length_filter]
        apply List.countP_mono_left
        intro u _ hu
        simp only [matchesEmailProvider, Bool.and_eq_true] at hu
        exact hu.1
    rw [findUserByEmail]
    simp only [selectRows]
    rw [singleResp_of_two_le _ hchain]
    simp [pgrstManyRows, pgrstNoRows]
  · rw [findUserByUuid]
    simp only [selectRows]
    rw [singleResp_of_two_le _ huuid]
    simp [pgrstManyRows, pgrstNoRows]

/-- Witness for C9: a table with two rows sharing the email, provider and
uuid being looked up. -/
theorem C9_multiple_matches_null_witness :
    findUserByEmail "a@b.c" (some "google")
        [mkUser "a@b.c" (some "u1") (some "google") none,
         mkUser "a@b.c" (some "u1") (some "google") (some "2024-01-01")]
        none = none ∧
    findUserByUuid "u1"
        [mkUser "a@b.c" (some "u1") (some "google") none,
         mkUser "a@b.c" (some "u1") (some "google") (some "2024-01-01")]
        none = none :=
  C9_multiple_matches_null "a@b.c" (some "google") "u1"
    [mkUser "a@b.c" (some "u1") (some "google") none,
     mkUser "a@b.c" (some "u1") (some "google") (some "2024-01-01")]
    (by decide) (by decide)

/-- Claim C6: insertUser returns the stored row (with the generated
fields filled in by the store) on success, and on any store-reported
failure — a transport failure or a duplicate uuid / duplicate
email+provider constraint violation — it raises (the error branch of the
Except) instead of returning a null or empty result. -/
theorem C6_insert_user (user : User) (db : List User) (gen : User → User) :
    (insertConflict db user = false →
      insertUser user db none gen = .ok (gen user)) ∧
    (∀ code, insertUser user db (some code) gen = .error code) ∧
    (insertConflict db user = true →
      insertUser user db none gen = .error "23505") := by
  refine ⟨?_, ?_, ?_⟩
  · intro hok
    simp [insertUser, storeInsert, hok]
  · intro code
    simp [insertUser, storeInsert]
  · intro hconf
    simp [insertUser, storeInsert, hconf]

/-- Witness for C6: inserting a fresh row into an empty table succeeds;
the conflict and failure branches are exercised through the other
conjuncts at concrete inputs. -/
theorem C6_insert_user_witness :
    insertUser (mkUser "a@b.c" (some "u1") (some "google") none) [] none id =
      .ok (mkUser "a@b.c" (some "u1") (some "google") none) :=
  (C6_insert_user (mkUser "a@b.c" (some "u1") (some "google") none) [] id).1
    (by rfl)

/-- Claim C7: getUsersByUuids on the empty input returns the empty list
with zero queries issued; on a non-empty input it issues one query and
returns exactly the rows whose uuid lies in the given set. -/
theorem C7_get_users_by_uuids (uuids : List String) (db : List User) :
    (∀ failure, getUsersByUuids [] db failure = ([], 0)) ∧
    (uuids ≠ [] →
      getUsersByUuids uuids db none =
        (db.filter (fun u =>
          match u.uuid with
          | some x => uuids.contains x
          | none => false), 1)) := by
  constructor
  · intro failure
    simp [getUsersByUuids]
  · intro hne
    have : uuids.isEmpty = false := by
      simpa [List.isEmpty_iff] using hne
    simp [getUsersByUuids, this, selectRows]

/-- Witness for C7: a two-element uuid list against a three-row table
returns the two matching rows with one query issued. -/
theorem C7_get_users_by_uuids_witness :
    getUsersByUuids ["u1", "u3"]
        [mkUser "a@x" (some "u1") none none,
         mkUser "b@x" (some "u2") none none,
         mkUser "c@x" (some "u3") none none] none =
      ([mkUser "a@x" (some "u1") none none,
        mkUser "c@x" (some "u3") none none], 1) := by
  have h := (C7_get_users_by_uuids ["u1", "u3"]
    [mkUser "a@x" (some "u1") none none,
     mkUser "b@x" (some "u2") none none,
     mkUser "c@x" (some "u3") none none]).2 (by decide)
  rw [h]
  rfl

/-- Claim C8: updateUser applies the partial update to the row matching
the uuid and returns the updated row; on any failure — an injected store
error or a row count other than one — it returns null, never raising (the
return type carries no error channel). -/
theorem C8_update_user (uuid : String) (updates : PartialUser)
    (db : List User) :
    (∀ code, updateUser uuid updates db (some code) = none) ∧
    (∀ u, db.filter (fun r => r.uuid == some uuid) = [u] →
      updateUser uuid updates db none = some (applyPartial updates u)) ∧
    (db.filter (fun r => r.uuid == some uuid) = [] →
      updateUser uuid updates db none = none) := by
  refine ⟨?_, ?_, ?_⟩
  · intro code
    simp [updateUser, selectRows, singleResp]
  · intro u hone
    simp [updateUser, selectRows, hone, singleResp]
  · intro hnone
    simp [updateUser, selectRows, hnone, singleResp]

/-- Witness for C8: updating the nickname of the unique row carrying the
uuid returns that row with the nickname replaced. -/
theorem C8_update_user_witness :
    updateUser "u1"
        { emptyPartial with nickname := some "newname" }
        [mkUser "a@x" (some "u1") none none,
         mkUser "b@x" (some "u2") none none] none =
      some (applyPartial { emptyPartial with nickname := some "newname" }
        (mkUser "a@x" (some "u1") none none)) :=
  (C8_update_user "u1" { emptyPartial with nickname := some "newname" }
      [mkUser "a@x" (some "u1") none none,
       mkUser "b@x" (some "u2") none none]).2.1
    (mkUser "a@x" (some "u1") none none) (by rfl)

theorem insertBy_perm (le : User → User → Bool) (u : User) (l : List User) :
    List.Perm (insertBy le u l) (u :: l) := by
  induction l with
  | nil => exact List.Perm.refl _
  | cons v vs ih =>
    by_cases h : le u v
    · simp only [insertBy, if_pos h]
      exact List.Perm.refl _
    · simp only [insertBy, if_neg h]
      exact (ih.cons v).trans (List.Perm.swap u v vs)

theorem sortByLe_perm (le : User → User → Bool) (l : List User) :
    List.Perm (sortByLe le l) l := by
  induction l with
  | nil => exact List.Perm.refl _
  | cons u us ih =>
    exact (insertBy_perm le u (sortByLe le us)).trans (ih.cons u)

theorem sortByLe_countP (le : User → User → Bool) (l : List User)
    (p : User → Bool) : (sortByLe le l).countP p = l.countP p :=
  List.Perm.countP_congr (sortByLe_perm le l) (fun _ _ => rfl)

theorem sortByLe_length (le : User → User → Bool) (l : List User) :
    (sortByLe le l).length = l.length :=
  List.Perm.length_eq (sortByLe_perm le l)

theorem lookupCount_mapSet_self (m : List (String × Nat)) (k : String)
    (v : Nat) : lookupCount (mapSet m k v) k = v := by
  induction m with
  | nil => simp [mapSet, lookupCount]
  | cons q rest ih =>
    obtain ⟨k0, v0⟩ := q
    by_cases h : k0 = k <;> simp [mapSet, lookupCount, h, ih]

theorem lookupCount_mapSet_ne (m : List (String × Nat)) (k k1 : String)
    (v : Nat) (h : k1 ≠ k) :
    lookupCount (mapSet m k v) k1 = lookupCount m k1 := by
  induction m with
  | nil => simp only [mapSet, lookupCount, if_neg (Ne.symm h)]
  | cons q rest ih =>
    obtain ⟨k0, v0⟩ := q
    by_cases h0 : k0 = k
    · subst h0
      simp only [mapSet, if_pos rfl, lookupCount, if_neg (Ne.symm h)]
    · simp only [mapSet, if_neg h0, lookupCount, ih]

theorem lookupCount_foldl (data : List User) :
    ∀ (m : List (String × Nat)) (k : String),
    lookupCount (data.foldl countStep m) k =
      lookupCount m k +
        data.countP (fun u => dateKey (u.created_at.getD "") == k) := by
  induction data with
  | nil => intro m k; simp
  | cons u rest ih =>
    intro m k
    rw [List.foldl_cons, ih, List.countP_cons]
    by_cases h : dateKey (u.created_at.getD "") = k
    · have hstep : lookupCount (countStep m u) k = lookupCount m k + 1 := by
        rw [countStep]
        simp only [h]
        exact lookupCount_mapSet_self m k (lookupCount m k + 1)
      rw [hstep]
      simp only [h, beq_self_eq_true, if_pos]
      omega
    · have hstep : lookupCount (countStep m u) k = lookupCount m k := by
        rw [countStep]
        exact lookupCount_mapSet_ne m _ k _ (fun he => h he.symm)
      rw [hstep]
      have hb : (dateKey (u.created_at.getD "") == k) = false := by
        simpa using h
      rw [hb]
      simp

theorem sumCounts_mapSet (m : List (String × Nat)) (k : String) :
    sumCounts (mapSet m k (lookupCount m k + 1)) = sumCounts m + 1 := by
  induction m with
  | nil => simp [mapSet, lookupCount, sumCounts]
  | cons q rest ih =>
    obtain ⟨k0, v0⟩ := q
    by_cases h : k0 = k
    · subst h
      have hlk : lookupCount ((k0, v0) :: rest) k0 = v0 := by
        simp [lookupCount]
      rw [hlk]
      have hms : mapSet ((k0, v0) :: rest) k0 (v0 + 1) = (k0, v0 + 1) :: rest := by
        simp [mapSet]
      rw [hms]
      simp only [sumCounts, List.map_cons, List.sum_cons]
      omega
    · have hlk : lookupCount ((k0, v0) :: rest) k = lookupCount rest k := by
        simp [lookupCount, h]
      rw [hlk]
      have hms : mapSet ((k0, v0) :: rest) k (lookupCount rest k + 1) =
          (k0, v0) :: mapSet rest k (lookupCount rest k + 1) := by
        simp [mapSet, h]
      rw [hms]
      simp only [sumCounts, List.map_cons, List.sum_cons] at ih ⊢
      omega

theorem sumCounts_foldl (data : List User) :
    ∀ m, sumCounts (data.foldl countStep m) = sumCounts m + data.length := by
  induction data with
  | nil => intro m; simp
  | cons u rest ih =>
    intro m
    rw [List.foldl_cons, ih]
    have : sumCounts (countStep m u) = sumCounts m + 1 := by
      rw [countStep]
      exact sumCounts_mapSet m _
    rw [this]
    simp only [List.length_cons]
    omega

theorem mapSet_pos (m : List (String × Nat)) (k : String) (v : Nat)
    (hv : 1 ≤ v) (h : ∀ q ∈ m, 1 ≤ q.2) :
    ∀ q ∈ mapSet m k v, 1 ≤ q.2 := by
  induction m with
  | nil =>
    intro q hq
    simp only [mapSet, List.mem_singleton] at hq
    subst hq
    exact hv
  | cons q0 rest ih =>
    obtain ⟨k0, v0⟩ := q0
    by_cases h0 : k0 = k
    · intro q hq
      simp only [mapSet, if_pos h0, List.mem_cons] at hq
      rcases hq with hq | hq
      · subst hq; exact hv
      · exact h q (List.mem_cons_of_mem _ hq)
    · intro q hq
      simp only [mapSet, if_neg h0, List.mem_cons] at hq
      rcases hq with hq | hq
      · subst hq; exact h _ (List.mem_cons_self _ _)
      · exact ih (fun r hr => h r (List.mem_cons_of_mem _ hr)) q hq

theorem foldl_countStep_pos (data : List User) :
    ∀ m, (∀ q ∈ m, 1 ≤ q.2) →
    ∀ q ∈ data.foldl countStep m, 1 ≤ q.2 := by
  induction data with
  | nil => intro m h; simpa using h
  | cons u rest ih =>
    intro m h
    rw [List.foldl_cons]
    refine ih _ ?_
    rw [countStep]
    exact mapSet_pos m _ _ (Nat.succ_le_succ (Nat.zero_le _)) h

/-- Claim C3: getUserCountByDate groups the fetched rows (created_at at
least startTime) by the date portion of created_at — the part before the
"T", which for ISO UTC timestamps is the UTC calendar date — into a map
from date string to count; rows 2024-01-01T03:00:00Z and
2024-01-01T23:00:00Z both land on key "2024-01-01" with combined count 2;
on read failure the result is absent. -/
theorem C3_count_by_date (startTime : String) (db : List User) :
    (∀ code, getUserCountByDate startTime db (some code) = none) ∧
    (∀ m, getUserCountByDate startTime db none = some m →
      ∀ k, lookupCount m k =
        (db.filter (createdAtLeast startTime)).countP
          (fun u => dateKey (u.created_at.getD "") == k)) ∧
    (getUserCountByDate "2024-01-01"
        [mkUser "a@x" none none (some "2024-01-01T03:00:00Z"),
         mkUser "b@x" none none (some "2024-01-01T23:00:00Z")] none =
      some [("2024-01-01", 2)]) := by
  refine ⟨?_, ?_, ?_⟩
  · intro code
    simp [getUserCountByDate, selectRows]
  · intro m hm k
    simp only [getUserCountByDate, selectRows, Option.some.injEq] at hm
    subst hm
    rw [lookupCount_foldl]
    simp only [lookupCount]
    rw [sortByLe_countP, Nat.zero_add]
  · decide

/-- Witness for C3: the grouped map of the two-row scenario contains the
combined count 2 at key "2024-01-01". -/
theorem C3_count_by_date_witness :
    lookupCount [("2024-01-01", 2)] "2024-01-01" =
      (List.filter (createdAtLeast "2024-01-01")
          [mkUser "a@x" none none (some "2024-01-01T03:00:00Z"),
           mkUser "b@x" none none (some "2024-01-01T23:00:00Z")]).countP
        (fun u => dateKey (u.created_at.getD "") == "2024-01-01") :=
  (C3_count_by_date "2024-01-01"
      [mkUser "a@x" none none (some "2024-01-01T03:00:00Z"),
       mkUser "b@x" none none (some "2024-01-01T23:00:00Z")]).2.1
    [("2024-01-01", 2)]
    (C3_count_by_date "2024-01-01"
      [mkUser "a@x" none none (some "2024-01-01T03:00:00Z"),
       mkUser "b@x" none none (some "2024-01-01T23:00:00Z")]).2.2
    "2024-01-01"

/-- Claim C10: whenever getUserCountByDate returns a map, every count in
it is at least 1 (no key with a zero count) and the counts sum to the
number of rows fetched with created_at at least startTime. -/
theorem C10_count_map_invariant (startTime : String) (db : List User)
    (failure : Option String) (m : List (String × Nat))
    (h : getUserCountByDate startTime db failure = some m) :
    (∀ q ∈ m, 1 ≤ q.2) ∧
    sumCounts m = (db.filter (createdAtLeast startTime)).length := by
  rcases failure with _ | code
  · simp only [getUserCountByDate, selectRows, Option.some.injEq] at h
    subst h
    constructor
    · exact foldl_countStep_pos _ [] (by simp)
    · rw [sumCounts_foldl]
      simp only [sumCounts, List.map_nil, List.sum_nil, Nat.zero_add]
      exact sortByLe_length _ _
  · simp [getUserCountByDate, selectRows] at h

/-- Witness for C10: the two-row scenario gives a map with positive
counts summing to the two fetched rows. -/
theorem C10_count_map_invariant_witness :
    (∀ q ∈ [("2024-01-01", 2)], 1 ≤ q.2) ∧
    sumCounts [("2024-01-01", 2)] =
      (List.filter (createdAtLeast "2024-01-01")
        [mkUser "a@x" none none (some "2024-01-01T03:00:00Z"),
         mkUser "b@x" none none (some "2024-01-01T23:00:00Z")]).length :=
  C10_count_map_invariant "2024-01-01"
    [mkUser "a@x" none none (some "2024-01-01T03:00:00Z"),
     mkUser "b@x" none none (some "2024-01-01T23:00:00Z")]
    none [("2024-01-01", 2)] (by decide)

/-- Claim C4: for page and limit at least 1, getUsers requests the row
range at offsets (page-1)*limit through (page-1)*limit + limit - 1
inclusive of the table ordered by created_at descending (position i of
the result is position offset+i of the ordered table, for i below limit);
the omitted-argument form defaults to page 1 and limit 50; a read failure
returns the empty sequence. -/
theorem C4_get_users_paging (page limit : Int)
    (hpage : 1 ≤ page) (hlimit : 1 ≤ limit) :
    (∀ db code, getUsers page limit db (some code) = []) ∧
    (∀ (db : List User) (i : Nat),
      (getUsers page limit db none)[i]? =
        if i < limit.toNat then
          (sortByLe createdLeDesc db)[((page - 1) * limit).toNat + i]?
        else none) ∧
    (∀ db failure, getUsersDefault db failure = getUsers 1 50 db failure) := by
  refine ⟨?_, ?_, ?_⟩
  · intro db code
    simp [getUsers, selectRows]
  · intro db i
    have hbody : getUsers page limit db none =
        rangeSlice (sortByLe createdLeDesc db) ((page - 1) * limit)
          ((page - 1) * limit + limit - 1) := by
      simp [getUsers, selectRows]
    rw [hbody, rangeSlice]
    have harith : (page - 1) * limit + limit - 1 - (page - 1) * limit + 1 =
        limit := by ring
    rw [harith, List.getElem?_take]
    by_cases hi : i < limit.toNat
    · rw [if_pos hi, if_pos hi, List.getElem?_drop]
    · rw [if_neg hi, if_neg hi]
  · intro db failure
    rfl

/-- Witness for C4: at page 2 and limit 10 over a twelve-row table, the
first returned row is the row at offset 10 of the descending order. -/
theorem C4_get_users_paging_witness :
    (getUsers 2 10
        ((List.range 12).map
          (fun i => mkUser (toString i) none none (some (toString i)))) none)[0]? =
      if 0 < (10 : Int).toNat then
        (sortByLe createdLeDesc
          ((List.range 12).map
            (fun i => mkUser (toString i) none none (some (toString i)))))[
          (((2 : Int) - 1) * 10).toNat + 0]?
      else none :=
  (C4_get_users_paging 2 10 (by decide) (by decide)).2.1
    ((List.range 12).map
      (fun i => mkUser (toString i) none none (some (toString i)))) 0

end ImagePrompt
